import Mathlib

/-
Shallow embedding of the dynamic-plugin adapter and the activity-profiler
helpers of libkineto (src/libkineto/src/dynamic_plugin/PluginProfiler.h,
PluginTraceBuilder.h, PluginUtils.h and src/libkineto/src/ActivityProfiler.h),
together with theorems settling the specification claims about them.

C pointers that may be null are embedded as Option; a C out-parameter becomes
an extra component of the returned value; a plugin function pointer becomes a
Lean function field.  Plugin handles are embedded as Nat where 0 plays the
role of nullptr.
-/

namespace libkineto

/-- Closed enumeration of internal activity kinds (ActivityType.h), restricted
to the kinds the dynamic-plugin translation table and the tests mention. -/
inductive ActivityType where
  | CPU_OP
  | USER_ANNOTATION
  | GPU_USER_ANNOTATION
  | GPU_MEMCPY
  | GPU_MEMSET
  | CONCURRENT_KERNEL
  | EXTERNAL_CORRELATION
  | CUDA_RUNTIME
  | CUDA_DRIVER
  | CPU_INSTANT_EVENT
  | PYTHON_FUNCTION
  | OVERHEAD
  | CUDA_SYNC
  | GPU_PM_COUNTER
  | CUDA_PROFILER_RANGE
deriving DecidableEq

/-- Modelled from the spec: wire-level event-kind codes declared in the missing
header include/DynamicPluginInterface.h.  The spec describes them as a closed
C enumeration with an explicit invalid sentinel; we model the sentinel as 0 and
the named codes as consecutive values. -/
def KINETO_PLUGIN_PROFILE_EVENT_TYPE_INVALID : Nat := 0

/-- Modelled from the spec: wire code for CPU_OP. -/
def KINETO_PLUGIN_PROFILE_EVENT_TYPE_CPU_OP : Nat := 1

/-- Modelled from the spec: wire code for USER_ANNOTATION. -/
def KINETO_PLUGIN_PROFILE_EVENT_TYPE_USER_ANNOTATION : Nat := 2

/-- Modelled from the spec: wire code for GPU_USER_ANNOTATION. -/
def KINETO_PLUGIN_PROFILE_EVENT_TYPE_GPU_USER_ANNOTATION : Nat := 3

/-- Modelled from the spec: wire code for GPU_MEMCPY. -/
def KINETO_PLUGIN_PROFILE_EVENT_TYPE_GPU_MEMCPY : Nat := 4

/-- Modelled from the spec: wire code for GPU_MEMSET. -/
def KINETO_PLUGIN_PROFILE_EVENT_TYPE_GPU_MEMSET : Nat := 5

/-- Modelled from the spec: wire code for CONCURRENT_KERNEL. -/
def KINETO_PLUGIN_PROFILE_EVENT_TYPE_CONCURRENT_KERNEL : Nat := 6

/-- Modelled from the spec: wire code for EXTERNAL_CORRELATION. -/
def KINETO_PLUGIN_PROFILE_EVENT_TYPE_EXTERNAL_CORRELATION : Nat := 7

/-- Modelled from the spec: wire code for CUDA_RUNTIME. -/
def KINETO_PLUGIN_PROFILE_EVENT_TYPE_CUDA_RUNTIME : Nat := 8

/-- Modelled from the spec: wire code for CUDA_DRIVER. -/
def KINETO_PLUGIN_PROFILE_EVENT_TYPE_CUDA_DRIVER : Nat := 9

/-- Modelled from the spec: wire code for CPU_INSTANT_EVENT. -/
def KINETO_PLUGIN_PROFILE_EVENT_TYPE_CPU_INSTANT_EVENT : Nat := 10

/-- Modelled from the spec: wire code for PYTHON_FUNCTION. -/
def KINETO_PLUGIN_PROFILE_EVENT_TYPE_PYTHON_FUNCTION : Nat := 11

/-- Modelled from the spec: wire code for OVERHEAD. -/
def KINETO_PLUGIN_PROFILE_EVENT_TYPE_OVERHEAD : Nat := 12

/-- Modelled from the spec: wire code for CUDA_SYNC. -/
def KINETO_PLUGIN_PROFILE_EVENT_TYPE_CUDA_SYNC : Nat := 13

/-- Modelled from the spec: wire code for GPU_PM_COUNTER. -/
def KINETO_PLUGIN_PROFILE_EVENT_TYPE_GPU_PM_COUNTER : Nat := 14

/-- Modelled from the spec: wire-level flow-kind code for a forward/backward
link, from the missing include/DynamicPluginInterface.h. -/
def KINETO_PLUGIN_PROFILE_EVENT_FLOW_TYPE_FWD_BWD : Nat := 1

/-- Modelled from the spec: wire-level flow-kind code for an async CPU/GPU
link, from the missing include/DynamicPluginInterface.h. -/
def KINETO_PLUGIN_PROFILE_EVENT_FLOW_TYPE_ASYNC_CPU_GPU : Nat := 2

/-- Modelled from the spec: internal forward/backward link kind (the constant
kLinkFwdBwd of the missing output_base.h). -/
def kLinkFwdBwd : Nat := 1

/-- Modelled from the spec: internal async CPU/GPU link kind (the constant
kLinkAsyncCpuGpu of the missing output_base.h). -/
def kLinkAsyncCpuGpu : Nat := 2

/-- Modelled from the spec: unpadded byte size of the plugin interface struct
(one size field plus six function pointers, LP64 layout), declared in the
missing include/DynamicPluginInterface.h. -/
def KINETO_PLUGIN_PROFILER_INTERFACE_UNPADDED_STRUCT_SIZE : Nat := 56

/-- Modelled from the spec: unpadded byte size of
KinetoPlugin_ProfilerProcessEvents_Params (size field plus profiler-handle and
trace-builder pointers, LP64 layout). -/
def KINETO_PLUGIN_PROFILER_PROCESS_EVENTS_PARAMS_UNPADDED_STRUCT_SIZE : Nat := 24

/-- Modelled from the spec: unpadded byte size of KinetoPlugin_ProfileEvent
(size field, event-type enum, two 8-byte timestamps, 8-byte event id and
4-byte device/resource/thread ids, LP64 layout). -/
def KINETO_PLUGIN_PROFILE_EVENT_UNPADDED_STRUCT_SIZE : Nat := 48

/-- Modelled from the spec: unpadded byte size of KinetoPlugin_ProfileEventFlow
(size field, 8-byte flow id, flow-type enum and is-start flag, LP64 layout). -/
def KINETO_PLUGIN_PROFILE_EVENT_FLOW_UNPADDED_STRUCT_SIZE : Nat := 24

/-- Modelled from the spec: unpadded byte size of
KinetoPlugin_ProfileResourceInfo (size field, 4-byte device/resource ids,
4-byte display order, name pointer, LP64 layout). -/
def KINETO_PLUGIN_PROFILE_RESOURCE_INFO_UNPADDED_STRUCT_SIZE : Nat := 28

/-- Versioned wire structure describing one profile event, as used by the
plugin side of the boundary (fields as initialized in DynamicPluginTest.cpp
and read in PluginTraceBuilder.h). -/
structure KinetoPlugin_ProfileEvent where
  unpaddedStructSize : Nat
  eventType : Nat
  startTimeUtcNs : Int
  endTimeUtcNs : Int
  eventId : Int
  deviceId : Int
  resourceId : Int
  threadId : Int
deriving DecidableEq

/-- Versioned wire structure carrying flow-link metadata for the last event. -/
structure KinetoPlugin_ProfileEventFlow where
  unpaddedStructSize : Nat
  flowId : Int
  flowType : Nat
  isStartPoint : Bool
deriving DecidableEq

/-- Versioned wire structure describing one resource (stream/queue/thread);
pName is a possibly-null C string. -/
structure KinetoPlugin_ProfileResourceInfo where
  unpaddedStructSize : Nat
  deviceId : Int
  resourceId : Int
  displayOrder : Int
  pName : Option String
deriving DecidableEq

/-- A trace span: a named time interval (TraceSpan.h). -/
structure TraceSpan where
  startTime : Int
  endTime : Int
  name : String
deriving DecidableEq

/-- Flow-link metadata stored on an activity (GenericTraceActivity.h). -/
structure FlowInfo where
  id : Int
  type : Nat
  start : Nat
deriving DecidableEq

/-- One recorded activity (GenericTraceActivity.h), with the fields the
plugin trace builder writes. -/
structure GenericTraceActivity where
  activityType : ActivityType
  activityName : String
  startTime : Int
  endTime : Int
  id : Int
  device : Int
  resource : Int
  threadId : Int
  flow : FlowInfo
  metadata : List (String × String)
deriving DecidableEq

/-- A CPU trace buffer: one span plus its recorded activities and gpu-op
count (libkineto.h). -/
structure CpuTraceBuffer where
  span : TraceSpan
  gpuOpCount : Int
  activities : List GenericTraceActivity
deriving DecidableEq

/-- Resource info collected by the builder (device id, resource id, display
order, name). -/
structure ResourceInfo where
  deviceId : Int
  resourceId : Int
  sortIndex : Int
  name : String
deriving DecidableEq

/-- Translation from a wire-level event-kind code to the internal activity
kind; the switch of PluginTraceBuilder.h (also duplicated in PluginUtils.h),
whose default branch yields CONCURRENT_KERNEL. -/
def convertToActivityType (t : Nat) : ActivityType :=
  if t = KINETO_PLUGIN_PROFILE_EVENT_TYPE_CPU_OP then ActivityType.CPU_OP
  else if t = KINETO_PLUGIN_PROFILE_EVENT_TYPE_USER_ANNOTATION then
    ActivityType.USER_ANNOTATION
  else if t = KINETO_PLUGIN_PROFILE_EVENT_TYPE_GPU_USER_ANNOTATION then
    ActivityType.GPU_USER_ANNOTATION
  else if t = KINETO_PLUGIN_PROFILE_EVENT_TYPE_GPU_MEMCPY then
    ActivityType.GPU_MEMCPY
  else if t = KINETO_PLUGIN_PROFILE_EVENT_TYPE_GPU_MEMSET then
    ActivityType.GPU_MEMSET
  else if t = KINETO_PLUGIN_PROFILE_EVENT_TYPE_CONCURRENT_KERNEL then
    ActivityType.CONCURRENT_KERNEL
  else if t = KINETO_PLUGIN_PROFILE_EVENT_TYPE_EXTERNAL_CORRELATION then
    ActivityType.EXTERNAL_CORRELATION
  else if t = KINETO_PLUGIN_PROFILE_EVENT_TYPE_CUDA_RUNTIME then
    ActivityType.CUDA_RUNTIME
  else if t = KINETO_PLUGIN_PROFILE_EVENT_TYPE_CUDA_DRIVER then
    ActivityType.CUDA_DRIVER
  else if t = KINETO_PLUGIN_PROFILE_EVENT_TYPE_CPU_INSTANT_EVENT then
    ActivityType.CPU_INSTANT_EVENT
  else if t = KINETO_PLUGIN_PROFILE_EVENT_TYPE_PYTHON_FUNCTION then
    ActivityType.PYTHON_FUNCTION
  else if t = KINETO_PLUGIN_PROFILE_EVENT_TYPE_OVERHEAD then
    ActivityType.OVERHEAD
  else if t = KINETO_PLUGIN_PROFILE_EVENT_TYPE_CUDA_SYNC then
    ActivityType.CUDA_SYNC
  else if t = KINETO_PLUGIN_PROFILE_EVENT_TYPE_GPU_PM_COUNTER then
    ActivityType.GPU_PM_COUNTER
  else ActivityType.CONCURRENT_KERNEL

/-- The event-kind codes the translation table recognizes (the cases of the
switch in PluginTraceBuilder.h). -/
def recognizedEventTypeCodes : List Nat :=
  [KINETO_PLUGIN_PROFILE_EVENT_TYPE_CPU_OP,
   KINETO_PLUGIN_PROFILE_EVENT_TYPE_USER_ANNOTATION,
   KINETO_PLUGIN_PROFILE_EVENT_TYPE_GPU_USER_ANNOTATION,
   KINETO_PLUGIN_PROFILE_EVENT_TYPE_GPU_MEMCPY,
   KINETO_PLUGIN_PROFILE_EVENT_TYPE_GPU_MEMSET,
   KINETO_PLUGIN_PROFILE_EVENT_TYPE_CONCURRENT_KERNEL,
   KINETO_PLUGIN_PROFILE_EVENT_TYPE_EXTERNAL_CORRELATION,
   KINETO_PLUGIN_PROFILE_EVENT_TYPE_CUDA_RUNTIME,
   KINETO_PLUGIN_PROFILE_EVENT_TYPE_CUDA_DRIVER,
   KINETO_PLUGIN_PROFILE_EVENT_TYPE_CPU_INSTANT_EVENT,
   KINETO_PLUGIN_PROFILE_EVENT_TYPE_PYTHON_FUNCTION,
   KINETO_PLUGIN_PROFILE_EVENT_TYPE_OVERHEAD,
   KINETO_PLUGIN_PROFILE_EVENT_TYPE_CUDA_SYNC,
   KINETO_PLUGIN_PROFILE_EVENT_TYPE_GPU_PM_COUNTER]

/-- Translation from a wire-level flow-kind code to the internal link kind;
the switch of PluginTraceBuilder.h (also duplicated in PluginUtils.h), whose
default branch yields 0 (no link). -/
def convertToLinkType (t : Nat) : Nat :=
  if t = KINETO_PLUGIN_PROFILE_EVENT_FLOW_TYPE_FWD_BWD then kLinkFwdBwd
  else if t = KINETO_PLUGIN_PROFILE_EVENT_FLOW_TYPE_ASYNC_CPU_GPU then
    kLinkAsyncCpuGpu
  else 0

/-- The flow-kind codes the flow translation table recognizes. -/
def recognizedFlowTypeCodes : List Nat :=
  [KINETO_PLUGIN_PROFILE_EVENT_FLOW_TYPE_FWD_BWD,
   KINETO_PLUGIN_PROFILE_EVENT_FLOW_TYPE_ASYNC_CPU_GPU]

/-- State of a PluginTraceBuilder: the owned buffer (none once moved out or on
a builder whose buffer was taken) and the collected resource infos. -/
structure PluginTraceBuilder where
  buffer : Option CpuTraceBuffer
  resourceInfos : List ResourceInfo
deriving DecidableEq

/-- The PluginTraceBuilder constructor: a fresh buffer holding the given span
and no activities. -/
def mkPluginTraceBuilder (span : TraceSpan) : PluginTraceBuilder :=
  ⟨some ⟨span, -1, []⟩, []⟩

/-- Replace the last element of a list by its image under f (models mutating
activities.back()). -/
def updateLast {α : Type} (f : α → α) : List α → List α
  | [] => []
  | [a] => [f a]
  | a :: b :: rest => a :: updateLast f (b :: rest)

/-- PluginTraceBuilder::addEvent.  Returns the int result of the boundary call
and the updated builder.  Note the source compares the declared size against
KINETO_PLUGIN_PROFILER_PROCESS_EVENTS_PARAMS_UNPADDED_STRUCT_SIZE, the size of
a different structure. -/
def PluginTraceBuilder.addEvent (b : PluginTraceBuilder)
    (pProfileEvent : Option KinetoPlugin_ProfileEvent) :
    Int × PluginTraceBuilder :=
  match b.buffer with
  | none => (-1, b)
  | some buf =>
    match pProfileEvent with
    | none => (-1, b)
    | some pe =>
      if pe.unpaddedStructSize <
          KINETO_PLUGIN_PROFILER_PROCESS_EVENTS_PARAMS_UNPADDED_STRUCT_SIZE then
        (-1, b)
      else
        let event : GenericTraceActivity :=
          { activityType := convertToActivityType pe.eventType
            activityName := ""
            startTime := pe.startTimeUtcNs
            endTime := pe.endTimeUtcNs
            id := pe.eventId
            device := pe.deviceId
            resource := pe.resourceId
            threadId := pe.threadId
            flow := ⟨0, 0, 0⟩
            metadata := [] }
        let buf2 := { buf with activities := buf.activities ++ [event] }
        (0, { b with buffer := some buf2 })

/-- PluginTraceBuilder::setLastEventName. -/
def PluginTraceBuilder.setLastEventName (b : PluginTraceBuilder)
    (pName : Option String) : Int × PluginTraceBuilder :=
  match b.buffer with
  | none => (-1, b)
  | some buf =>
    match pName with
    | none => (-1, b)
    | some s =>
      if buf.activities.isEmpty then
        (-1, b)
      else
        let acts := updateLast (fun a => { a with activityName := s })
          buf.activities
        let buf2 := { buf with activities := acts }
        (0, { b with buffer := some buf2 })

/-- PluginTraceBuilder::setLastEventFlow. -/
def PluginTraceBuilder.setLastEventFlow (b : PluginTraceBuilder)
    (pProfileEventFlow : Option KinetoPlugin_ProfileEventFlow) :
    Int × PluginTraceBuilder :=
  match b.buffer with
  | none => (-1, b)
  | some buf =>
    match pProfileEventFlow with
    | none => (-1, b)
    | some fl =>
      if fl.unpaddedStructSize <
          KINETO_PLUGIN_PROFILE_EVENT_FLOW_UNPADDED_STRUCT_SIZE then
        (-1, b)
      else if buf.activities.isEmpty then
        (-1, b)
      else
        let setFlow := fun (a : GenericTraceActivity) =>
          { a with flow := FlowInfo.mk fl.flowId (convertToLinkType fl.flowType)
                             (if fl.isStartPoint then 1 else 0) }
        let acts := updateLast setFlow buf.activities
        let buf2 := { buf with activities := acts }
        (0, { b with buffer := some buf2 })

/-- PluginTraceBuilder::addLastEventMetadata. -/
def PluginTraceBuilder.addLastEventMetadata (b : PluginTraceBuilder)
    (pKey pValue : Option String) : Int × PluginTraceBuilder :=
  match b.buffer with
  | none => (-1, b)
  | some buf =>
    match pKey, pValue with
    | none, _ => (-1, b)
    | _, none => (-1, b)
    | some k, some v =>
      if buf.activities.isEmpty then
        (-1, b)
      else
        let acts := updateLast (fun a =>
          { a with metadata := a.metadata ++ [(k, v)] }) buf.activities
        let buf2 := { buf with activities := acts }
        (0, { b with buffer := some buf2 })

/-- PluginTraceBuilder::addResourceInfo.  The source performs no buffer-moved
check here; it only validates the pointer and the declared size. -/
def PluginTraceBuilder.addResourceInfo (b : PluginTraceBuilder)
    (pProfileResourceInfo : Option KinetoPlugin_ProfileResourceInfo) :
    Int × PluginTraceBuilder :=
  match pProfileResourceInfo with
  | none => (-1, b)
  | some ri =>
    if ri.unpaddedStructSize <
        KINETO_PLUGIN_PROFILE_RESOURCE_INFO_UNPADDED_STRUCT_SIZE then
      (-1, b)
    else
      let nm : String :=
        match ri.pName with
        | some s => s
        | none => toString ri.resourceId
      (0, { b with resourceInfos :=
              b.resourceInfos ++ [⟨ri.deviceId, ri.resourceId,
                                   ri.displayOrder, nm⟩] })

/-- PluginTraceBuilder::getTraceBuffer: moves the buffer out of the builder. -/
def PluginTraceBuilder.getTraceBuffer (b : PluginTraceBuilder) :
    Option CpuTraceBuffer × PluginTraceBuilder :=
  (b.buffer, { b with buffer := none })

/-- The plugin's six function pointers plus the declared interface-struct
size (KinetoPlugin_ProfilerInterface of the plugin ABI).  profilerCreate
returns its error code and the handle it writes into the create params (0
models a null handle); profilerQuery takes the name buffer and the declared
max length and returns its error code and the buffer contents after the call;
profilerProcessEvents receives the opaque handle and the trace builder and
returns its error code and the builder after the plugin's callbacks ran. -/
structure KinetoPlugin_ProfilerInterface where
  unpaddedStructSize : Nat
  profilerCreate : Unit → Int × Nat
  profilerDestroy : Nat → Int
  profilerQuery : List Nat → Nat → Int × List Nat
  profilerStart : Nat → Int
  profilerStop : Nat → Int
  profilerProcessEvents : Nat → PluginTraceBuilder → Int × PluginTraceBuilder

/-- PluginProfiler::validateProfiler: when the plugin's declared interface
size is below the adapter's minimum, every function pointer is replaced by a
stub that returns -1 (the stubs write no outputs, so the query buffer and the
builder pass through unchanged). -/
def validateProfiler (p : KinetoPlugin_ProfilerInterface) :
    KinetoPlugin_ProfilerInterface :=
  if p.unpaddedStructSize <
      KINETO_PLUGIN_PROFILER_INTERFACE_UNPADDED_STRUCT_SIZE then
    { p with
      profilerCreate := fun _ => (-1, 0)
      profilerDestroy := fun _ => -1
      profilerQuery := fun buf _ => (-1, buf)
      profilerStart := fun _ => -1
      profilerStop := fun _ => -1
      profilerProcessEvents := fun _ b => (-1, b) }
  else p

/-- State of one PluginProfilerSession: the opaque plugin handle (0 models a
null handle) and the locally recorded start/stop wall-clock timestamps. -/
structure PluginProfilerSession where
  pProfilerHandle : Nat
  lastStartTimestampUtcNs : Int
  lastStopTimestampUtcNs : Int
deriving DecidableEq

/-- The plugin entry points a session can invoke across the boundary. -/
inductive PluginCall where
  | create
  | destroy
  | query
  | start
  | stop
  | processEvents
deriving DecidableEq

/-- The PluginProfilerSession constructor: issues one profilerCreate call; a
non-zero error code leaves the handle null, otherwise the handle the plugin
wrote is kept.  Returns the session state and the plugin calls issued. -/
def sessionCreate (profiler : KinetoPlugin_ProfilerInterface) :
    PluginProfilerSession × List PluginCall :=
  let r := profiler.profilerCreate ()
  (⟨if r.1 ≠ 0 then 0 else r.2, 0, 0⟩, [PluginCall.create])

/-- The synchronous operations a caller can invoke on a session between its
construction and destruction (each start/stop records the current wall-clock
time, passed here as the operation's argument). -/
inductive SessionOp where
  | start (now : Int)
  | stop (now : Int)
  | processTrace
deriving DecidableEq

/-- One session operation: PluginProfilerSession::start records the timestamp
first and skips the plugin call when the handle is null; stop likewise;
processTrace returns before any plugin call when the handle is null. -/
def sessionOpStep (s : PluginProfilerSession) :
    SessionOp → PluginProfilerSession × List PluginCall
  | SessionOp.start now =>
    let s2 := { s with lastStartTimestampUtcNs := now }
    if s.pProfilerHandle = 0 then (s2, []) else (s2, [PluginCall.start])
  | SessionOp.stop now =>
    let s2 := { s with lastStopTimestampUtcNs := now }
    if s.pProfilerHandle = 0 then (s2, []) else (s2, [PluginCall.stop])
  | SessionOp.processTrace =>
    if s.pProfilerHandle = 0 then (s, [])
    else (s, [PluginCall.processEvents])

/-- Run a sequence of session operations, accumulating the plugin calls. -/
def runSessionOps (s : PluginProfilerSession) :
    List SessionOp → PluginProfilerSession × List PluginCall
  | [] => (s, [])
  | op :: rest =>
    let r1 := sessionOpStep s op
    let r2 := runSessionOps r1.1 rest
    (r2.1, r1.2 ++ r2.2)

/-- The PluginProfilerSession destructor: issues one profilerDestroy call iff
the handle is non-null. -/
def sessionDestroyCalls (s : PluginProfilerSession) : List PluginCall :=
  if s.pProfilerHandle = 0 then [] else [PluginCall.destroy]

/-- All plugin calls issued over a session's lifetime: construction, then the
given operations, then destruction. -/
def sessionLifecycleCalls (profiler : KinetoPlugin_ProfilerInterface)
    (ops : List SessionOp) : List PluginCall :=
  let c := sessionCreate profiler
  let r := runSessionOps c.1 ops
  c.2 ++ r.2 ++ sessionDestroyCalls r.1

/-- Byte string "N/A" assigned to the profiler name when profilerQuery fails. -/
def notAvailableName : List Nat := [78, 47, 65]

/-- The C-string read performed by name_.assign(queryParams.pProfilerName) in
the PluginProfiler constructor: the bytes before the first null byte of the
32-byte buffer.  The source writes nothing into the buffer after the query,
so if the plugin left no null byte inside it the read runs past the buffer;
that out-of-bounds read is modelled as none. -/
def cStringFromBuffer (buf : List Nat) : Option (List Nat) :=
  if 0 ∈ buf then some (buf.takeWhile (fun b => b != 0)) else none

/-- The name-query part of the PluginProfiler constructor: a 32-byte buffer
(contents initial, since char profilerName[32] is uninitialized) is passed to
profilerQuery with max length 31; on a non-zero error code the name becomes
"N/A", otherwise the adapter reads the buffer as a C string without writing
any terminator of its own. -/
def profilerQueriedName (profiler : KinetoPlugin_ProfilerInterface)
    (initialBuf : List Nat) : Option (List Nat) :=
  let r := profiler.profilerQuery initialBuf 31
  if r.1 ≠ 0 then some notAvailableName else cStringFromBuffer r.2

/-- PluginProfiler::availableActivities — hardcoded to the single kind
CUDA_PROFILER_RANGE (the source carries a TODO to query the plugin). -/
def availableActivities : List ActivityType :=
  [ActivityType.CUDA_PROFILER_RANGE]

/-- PluginProfiler::configure — the source ignores the requested activity
kinds (a TODO marks the missing intersection check) and unconditionally
constructs and returns a session. -/
def PluginProfiler.configure (profiler : KinetoPlugin_ProfilerInterface)
    (activity_types : List ActivityType) : Option PluginProfilerSession :=
  some (sessionCreate profiler).1

/-- A concrete well-formed plugin interface mirroring the MockPlugin of
DynamicPluginTest.cpp: every call succeeds, create hands out handle 1 and
query writes the name "MockPlugin" followed by a null byte. -/
def mockPluginInterface : KinetoPlugin_ProfilerInterface :=
  { unpaddedStructSize := KINETO_PLUGIN_PROFILER_INTERFACE_UNPADDED_STRUCT_SIZE
    profilerCreate := fun _ => (0, 1)
    profilerDestroy := fun _ => 0
    profilerQuery := fun _ _ =>
      (0, [77, 111, 99, 107, 80, 108, 117, 103, 105, 110, 0] ++
            List.replicate 21 0)
    profilerStart := fun _ => 0
    profilerStop := fun _ => 0
    profilerProcessEvents := fun _ b => (0, b) }

/-- A plugin whose query call fills the whole 32-byte name buffer with
non-null bytes and reports success. -/
def bufferFillingPluginInterface : KinetoPlugin_ProfilerInterface :=
  { unpaddedStructSize := KINETO_PLUGIN_PROFILER_INTERFACE_UNPADDED_STRUCT_SIZE
    profilerCreate := fun _ => (0, 1)
    profilerDestroy := fun _ => 0
    profilerQuery := fun _ _ => (0, List.replicate 32 65)
    profilerStart := fun _ => 0
    profilerStop := fun _ => 0
    profilerProcessEvents := fun _ b => (0, b) }

/-- The profilerOverhead counter of ActivityProfiler.h: a running sum and a
sample count. -/
structure profilerOverhead where
  overhead : Int
  cntr : Int
deriving DecidableEq

/-- ActivityProfiler::addOverheadSample. -/
def addOverheadSample (counter : profilerOverhead) (overhead : Int) :
    profilerOverhead :=
  ⟨counter.overhead + overhead, counter.cntr + 1⟩

/-- ActivityProfiler::getOverhead: zero when no samples, otherwise the C++
truncating integer division sum / count. -/
def getOverhead (counter : profilerOverhead) : Int :=
  if counter.cntr = 0 then 0 else Int.tdiv counter.overhead counter.cntr

/-- ActivityProfiler::passesGpuOpCountThreshold. -/
def passesGpuOpCountThreshold (cpuOnly : Bool)
    (netGpuOpCountThreshold : Int) (cpuTrace : CpuTraceBuffer) : Bool :=
  cpuOnly || decide (cpuTrace.gpuOpCount < 0) ||
    decide (netGpuOpCountThreshold ≤ cpuTrace.gpuOpCount)

/-- Run a sequence of (addEvent, setLastEventName) call pairs against a
builder, exactly as the plugin's process-events callback issues them through
the trampolines. -/
def runNamedEvents (b : PluginTraceBuilder) :
    List (KinetoPlugin_ProfileEvent × String) → PluginTraceBuilder
  | [] => b
  | (pe, n) :: rest =>
    runNamedEvents
      (((b.addEvent (some pe)).2.setLastEventName (some n)).2) rest

/-- The activity the spec says such a call pair should append: the translated
kind, the given name, and the event's own timestamps and ids (this definition
follows the spec's words, for comparison with the builder's output). -/
def specExpectedActivity (pe : KinetoPlugin_ProfileEvent) (n : String) :
    GenericTraceActivity :=
  { activityType := convertToActivityType pe.eventType
    activityName := n
    startTime := pe.startTimeUtcNs
    endTime := pe.endTimeUtcNs
    id := pe.eventId
    device := pe.deviceId
    resource := pe.resourceId
    threadId := pe.threadId
    flow := ⟨0, 0, 0⟩
    metadata := [] }

/-- A plugin interface whose declared struct size (0) is below the adapter's
minimum. -/
def undersizedPluginInterface : KinetoPlugin_ProfilerInterface :=
  { unpaddedStructSize := 0
    profilerCreate := fun _ => (0, 1)
    profilerDestroy := fun _ => 0
    profilerQuery := fun buf _ => (0, buf)
    profilerStart := fun _ => 0
    profilerStop := fun _ => 0
    profilerProcessEvents := fun _ b => (0, b) }

/-- A plugin whose create call fails with error code -1. -/
def failingCreatePluginInterface : KinetoPlugin_ProfilerInterface :=
  { unpaddedStructSize := KINETO_PLUGIN_PROFILER_INTERFACE_UNPADDED_STRUCT_SIZE
    profilerCreate := fun _ => (-1, 0)
    profilerDestroy := fun _ => 0
    profilerQuery := fun buf _ => (0, buf)
    profilerStart := fun _ => 0
    profilerStop := fun _ => 0
    profilerProcessEvents := fun _ b => (0, b) }

/-- The trace span used by the concrete test scenarios. -/
def testSpan : TraceSpan := ⟨1000000000, 2000000000, "MockPlugin"⟩

/-- A profile event whose declared size equals the (smaller)
process-events-params size, hence lies strictly below the profile-event
struct's own minimum. -/
def undersizedProfileEvent : KinetoPlugin_ProfileEvent :=
  ⟨KINETO_PLUGIN_PROFILER_PROCESS_EVENTS_PARAMS_UNPADDED_STRUCT_SIZE,
   KINETO_PLUGIN_PROFILE_EVENT_TYPE_CUDA_RUNTIME, 100, 200, 7, 1, 2, 3⟩

/-- The four (event, name) call pairs the MockPlugin of DynamicPluginTest.cpp
issues during process-events. -/
def testEventPairs : List (KinetoPlugin_ProfileEvent × String) :=
  [(⟨KINETO_PLUGIN_PROFILE_EVENT_UNPADDED_STRUCT_SIZE,
     KINETO_PLUGIN_PROFILE_EVENT_TYPE_CUDA_RUNTIME,
     1000000000, 1000005000, 1, 0, 123, 0⟩, "cudaLaunchKernel"),
   (⟨KINETO_PLUGIN_PROFILE_EVENT_UNPADDED_STRUCT_SIZE,
     KINETO_PLUGIN_PROFILE_EVENT_TYPE_CUDA_DRIVER,
     1000010000, 1000015000, 2, 0, 124, 0⟩, "cuLaunchKernel"),
   (⟨KINETO_PLUGIN_PROFILE_EVENT_UNPADDED_STRUCT_SIZE,
     KINETO_PLUGIN_PROFILE_EVENT_TYPE_CONCURRENT_KERNEL,
     1000020000, 1000050000, 3, 0, 1, 0⟩, "test_kernel"),
   (⟨KINETO_PLUGIN_PROFILE_EVENT_UNPADDED_STRUCT_SIZE,
     KINETO_PLUGIN_PROFILE_EVENT_TYPE_GPU_MEMCPY,
     1000060000, 1000070000, 4, 0, 2, 0⟩, "cudaMemcpyHtoD")]

/-- Folding addOverheadSample over a sample list adds the samples to the
running sum and the number of samples to the count. -/
theorem foldl_addOverheadSample (samples : List Int) (c : profilerOverhead) :
    samples.foldl addOverheadSample c
      = ⟨c.overhead + samples.sum, c.cntr + samples.length⟩ := by
  induction samples generalizing c with
  | nil => simp
  | cons s rest ih =>
    rw [List.foldl_cons, ih]
    simp [addOverheadSample]
    constructor
    · ring
    · ring

/-- C9: getOverhead returns 0 when the sample count is zero and otherwise the
truncating integer division of the running sum by the sample count, where each
addOverheadSample adds its sample to the sum and increments the count: over
any sample list starting from zeroed counters, the stored sum is the list sum,
the stored count is the list length, and the reported overhead is their
quotient (0 for the empty list). -/
theorem getOverhead_is_average (samples : List Int) :
    (samples.foldl addOverheadSample ⟨0, 0⟩).overhead = samples.sum ∧
    (samples.foldl addOverheadSample ⟨0, 0⟩).cntr = samples.length ∧
    getOverhead (samples.foldl addOverheadSample ⟨0, 0⟩)
      = if samples.length = 0 then 0
        else Int.tdiv samples.sum samples.length := by
  rw [foldl_addOverheadSample]
  refine ⟨by simp, by simp, ?_⟩
  simp only [getOverhead, zero_add]
  by_cases h : samples.length = 0
  · simp [h]
  · have h2 : ((samples.length : Int)) ≠ 0 := by exact_mod_cast h
    simp [h, h2]

/-- C8: passesGpuOpCountThreshold admits a buffer iff the backend is CPU-only,
or the gpu-op count is negative, or the count reaches the configured
threshold; equivalently it drops the buffer iff the backend is not CPU-only
and the count is non-negative but below the threshold. -/
theorem passesGpuOpCountThreshold_iff (cpuOnly : Bool) (thr : Int)
    (buf : CpuTraceBuffer) :
    (passesGpuOpCountThreshold cpuOnly thr buf = true ↔
      (cpuOnly = true ∨ buf.gpuOpCount < 0 ∨ thr ≤ buf.gpuOpCount)) ∧
    (passesGpuOpCountThreshold cpuOnly thr buf = false ↔
      (cpuOnly = false ∧ 0 ≤ buf.gpuOpCount ∧ buf.gpuOpCount < thr)) := by
  constructor
  · simp [passesGpuOpCountThreshold]
    tauto
  · cases cpuOnly
    · simp [passesGpuOpCountThreshold]
    · simp [passesGpuOpCountThreshold]

/-- C10: once getTraceBuffer has moved the buffer out of a builder, each of
addEvent, setLastEventName, setLastEventFlow and addLastEventMetadata returns
-1 and leaves the builder unchanged, whatever arguments the plugin passes. -/
theorem mutators_fail_after_buffer_moved (b : PluginTraceBuilder)
    (pe : Option KinetoPlugin_ProfileEvent) (nm : Option String)
    (fl : Option KinetoPlugin_ProfileEventFlow) (k v : Option String) :
    (b.getTraceBuffer).2.buffer = none ∧
    (b.getTraceBuffer).2.addEvent pe = (-1, (b.getTraceBuffer).2) ∧
    (b.getTraceBuffer).2.setLastEventName nm = (-1, (b.getTraceBuffer).2) ∧
    (b.getTraceBuffer).2.setLastEventFlow fl = (-1, (b.getTraceBuffer).2) ∧
    (b.getTraceBuffer).2.addLastEventMetadata k v
      = (-1, (b.getTraceBuffer).2) := by
  and_intros <;> rfl

/-- C1: the failing input for the plugin-admission claim.  The requested-kind
set is empty, so the claimed set-intersection test demands that configure
return no session; the source's configure (whose intersection check is an
unimplemented TODO) nevertheless constructs and returns a session. -/
theorem configure_empty_requested_still_creates_session :
    (PluginProfiler.configure mockPluginInterface []).isSome = true := rfl

/-- C2: the failing input for the struct-versioning claim at addEvent.  The
event declares size 24 — the size of the unrelated process-events-params
struct that the source compares against — which is strictly below the
profile-event struct's own minimum of 48; the claim demands a -1 result with
no field read, yet the call succeeds and appends an activity built from every
field of the undersized event. -/
theorem addEvent_undersized_event_accepted :
    undersizedProfileEvent.unpaddedStructSize <
      KINETO_PLUGIN_PROFILE_EVENT_UNPADDED_STRUCT_SIZE ∧
    ((mkPluginTraceBuilder testSpan).addEvent
        (some undersizedProfileEvent)).1 = 0 ∧
    ((mkPluginTraceBuilder testSpan).addEvent
        (some undersizedProfileEvent)).2.buffer
      = some ⟨testSpan, -1,
          [⟨ActivityType.CUDA_RUNTIME, "", 100, 200, 7, 1, 2, 3,
            ⟨0, 0, 0⟩, []⟩]⟩ := by
  refine ⟨by decide, rfl, rfl⟩

/-- C3: when the plugin's declared interface-struct size is below the
adapter's minimum, validateProfiler replaces all six plugin function pointers
with stubs, so every boundary call through the validated adapter — create,
destroy, query, start, stop, process-events, on any arguments — returns the
failure code -1, while the adapter structure itself stays intact (its declared
size field is preserved). -/
theorem validateProfiler_disables_all_entry_points
    (p : KinetoPlugin_ProfilerInterface) (hdl : Nat) (buf : List Nat)
    (mlen hdl2 : Nat) (tb : PluginTraceBuilder)
    (h : p.unpaddedStructSize <
      KINETO_PLUGIN_PROFILER_INTERFACE_UNPADDED_STRUCT_SIZE) :
    ((validateProfiler p).profilerCreate ()).1 = -1 ∧
    (validateProfiler p).profilerDestroy hdl = -1 ∧
    ((validateProfiler p).profilerQuery buf mlen).1 = -1 ∧
    (validateProfiler p).profilerStart hdl = -1 ∧
    (validateProfiler p).profilerStop hdl = -1 ∧
    ((validateProfiler p).profilerProcessEvents hdl2 tb).1 = -1 ∧
    (validateProfiler p).unpaddedStructSize = p.unpaddedStructSize := by
  unfold validateProfiler
  rw [if_pos h]
  and_intros <;> rfl

/-- Witness for C3: the concrete undersized interface is disabled. -/
theorem validateProfiler_disables_all_entry_points_witness :
    undersizedPluginInterface.unpaddedStructSize <
      KINETO_PLUGIN_PROFILER_INTERFACE_UNPADDED_STRUCT_SIZE ∧
    ((validateProfiler undersizedPluginInterface).profilerCreate ()).1 = -1 ∧
    (validateProfiler undersizedPluginInterface).profilerDestroy 1 = -1 ∧
    ((validateProfiler undersizedPluginInterface).profilerQuery [] 31).1
      = -1 ∧
    (validateProfiler undersizedPluginInterface).profilerStart 1 = -1 ∧
    (validateProfiler undersizedPluginInterface).profilerStop 1 = -1 ∧
    ((validateProfiler undersizedPluginInterface).profilerProcessEvents 1
        (mkPluginTraceBuilder testSpan)).1 = -1 ∧
    (validateProfiler undersizedPluginInterface).unpaddedStructSize
      = undersizedPluginInterface.unpaddedStructSize :=
  ⟨by decide,
   validateProfiler_disables_all_entry_points undersizedPluginInterface 1 []
     31 1 (mkPluginTraceBuilder testSpan) (by decide)⟩

/-- A session operation never changes the profiler handle and never issues a
create, destroy or query call. -/
theorem sessionOpStep_invariants (s : PluginProfilerSession)
    (op : SessionOp) :
    (sessionOpStep s op).1.pProfilerHandle = s.pProfilerHandle ∧
    (sessionOpStep s op).2.count PluginCall.create = 0 ∧
    (sessionOpStep s op).2.count PluginCall.destroy = 0 ∧
    (s.pProfilerHandle = 0 → (sessionOpStep s op).2 = []) := by
  cases op with
  | start now =>
    by_cases h : s.pProfilerHandle = 0 <;> simp [sessionOpStep, h]
  | stop now =>
    by_cases h : s.pProfilerHandle = 0 <;> simp [sessionOpStep, h]
  | processTrace =>
    by_cases h : s.pProfilerHandle = 0 <;> simp [sessionOpStep, h]

/-- Running session operations never changes the profiler handle and never
issues a create or destroy call; with a null handle no plugin call at all is
issued. -/
theorem runSessionOps_invariants (ops : List SessionOp)
    (s : PluginProfilerSession) :
    (runSessionOps s ops).1.pProfilerHandle = s.pProfilerHandle ∧
    (runSessionOps s ops).2.count PluginCall.create = 0 ∧
    (runSessionOps s ops).2.count PluginCall.destroy = 0 ∧
    (s.pProfilerHandle = 0 → (runSessionOps s ops).2 = []) := by
  induction ops generalizing s with
  | nil => simp [runSessionOps]
  | cons op rest ih =>
    obtain ⟨hh, hc, hd, hn⟩ := sessionOpStep_invariants s op
    obtain ⟨ih1, ih2, ih3, ih4⟩ := ih (sessionOpStep s op).1
    refine ⟨?_, ?_, ?_, ?_⟩
    · simp only [runSessionOps]
      rw [ih1, hh]
    · simp only [runSessionOps, List.count_append]
      omega
    · simp only [runSessionOps, List.count_append]
      omega
    · intro h0
      simp only [runSessionOps, List.append_eq_nil]
      exact ⟨hn h0, ih4 (by rw [hh, h0])⟩

/-- C5: over a whole session lifetime — construction, any sequence of start,
stop and processTrace operations, destruction — exactly one profilerCreate
call is issued; when profilerCreate returned a non-zero code, the handle is
null and the create call stays the only plugin call of the whole lifetime;
and exactly one profilerDestroy call is issued iff the handle is non-null,
independently of which operations ran. -/
theorem session_lifecycle_calls_spec (profiler : KinetoPlugin_ProfilerInterface)
    (ops : List SessionOp) :
    (sessionLifecycleCalls profiler ops).count PluginCall.create = 1 ∧
    ((profiler.profilerCreate ()).1 ≠ 0 →
      (sessionCreate profiler).1.pProfilerHandle = 0 ∧
      sessionLifecycleCalls profiler ops = [PluginCall.create]) ∧
    ((sessionLifecycleCalls profiler ops).count PluginCall.destroy = 1 ↔
      (sessionCreate profiler).1.pProfilerHandle ≠ 0) := by
  obtain ⟨hh, hc, hd, hn⟩ :=
    runSessionOps_invariants ops (sessionCreate profiler).1
  have hcreate : (sessionCreate profiler).2 = [PluginCall.create] := rfl
  refine ⟨?_, ?_, ?_⟩
  · simp only [sessionLifecycleCalls, List.count_append, hcreate,
      sessionDestroyCalls]
    by_cases h0 : (runSessionOps (sessionCreate profiler).1 ops).1.pProfilerHandle = 0 <;>
      simp [h0, hc]
  · intro hfail
    have h0 : (sessionCreate profiler).1.pProfilerHandle = 0 := by
      simp [sessionCreate, hfail]
    refine ⟨h0, ?_⟩
    have hmid : (runSessionOps (sessionCreate profiler).1 ops).2 = [] := hn h0
    have hend :
        sessionDestroyCalls (runSessionOps (sessionCreate profiler).1 ops).1
          = [] := by
      simp [sessionDestroyCalls, hh, h0]
    simp [sessionLifecycleCalls, hcreate, hmid, hend]
  · simp only [sessionLifecycleCalls, List.count_append, hcreate,
      sessionDestroyCalls, hh]
    by_cases h0 : (sessionCreate profiler).1.pProfilerHandle = 0 <;>
      simp [h0, hd]

/-- Witness for C5: a plugin whose create call fails with -1 yields a
lifetime trace of exactly one create call and no destroy. -/
theorem session_lifecycle_calls_spec_witness :
    (failingCreatePluginInterface.profilerCreate ()).1 ≠ 0 ∧
    (sessionCreate failingCreatePluginInterface).1.pProfilerHandle = 0 ∧
    sessionLifecycleCalls failingCreatePluginInterface
        [SessionOp.start 5, SessionOp.stop 9, SessionOp.processTrace]
      = [PluginCall.create] :=
  ⟨by decide,
   (session_lifecycle_calls_spec failingCreatePluginInterface
       [SessionOp.start 5, SessionOp.stop 9, SessionOp.processTrace]).2.1
     (by decide)⟩

/-- C7: every wire-level event-kind code outside the closed translation table
maps to the default kind CONCURRENT_KERNEL, every flow-kind code outside the
flow table maps to the no-link value 0, and each recognized code maps to its
listed internal kind. -/
theorem translation_tables_default_and_listed (t f : Nat) :
    (t ∉ recognizedEventTypeCodes →
      convertToActivityType t = ActivityType.CONCURRENT_KERNEL) ∧
    (f ∉ recognizedFlowTypeCodes → convertToLinkType f = 0) ∧
    convertToActivityType KINETO_PLUGIN_PROFILE_EVENT_TYPE_CPU_OP
      = ActivityType.CPU_OP ∧
    convertToActivityType KINETO_PLUGIN_PROFILE_EVENT_TYPE_USER_ANNOTATION
      = ActivityType.USER_ANNOTATION ∧
    convertToActivityType KINETO_PLUGIN_PROFILE_EVENT_TYPE_GPU_USER_ANNOTATION
      = ActivityType.GPU_USER_ANNOTATION ∧
    convertToActivityType KINETO_PLUGIN_PROFILE_EVENT_TYPE_GPU_MEMCPY
      = ActivityType.GPU_MEMCPY ∧
    convertToActivityType KINETO_PLUGIN_PROFILE_EVENT_TYPE_GPU_MEMSET
      = ActivityType.GPU_MEMSET ∧
    convertToActivityType KINETO_PLUGIN_PROFILE_EVENT_TYPE_CONCURRENT_KERNEL
      = ActivityType.CONCURRENT_KERNEL ∧
    convertToActivityType KINETO_PLUGIN_PROFILE_EVENT_TYPE_EXTERNAL_CORRELATION
      = ActivityType.EXTERNAL_CORRELATION ∧
    convertToActivityType KINETO_PLUGIN_PROFILE_EVENT_TYPE_CUDA_RUNTIME
      = ActivityType.CUDA_RUNTIME ∧
    convertToActivityType KINETO_PLUGIN_PROFILE_EVENT_TYPE_CUDA_DRIVER
      = ActivityType.CUDA_DRIVER ∧
    convertToActivityType KINETO_PLUGIN_PROFILE_EVENT_TYPE_CPU_INSTANT_EVENT
      = ActivityType.CPU_INSTANT_EVENT ∧
    convertToActivityType KINETO_PLUGIN_PROFILE_EVENT_TYPE_PYTHON_FUNCTION
      = ActivityType.PYTHON_FUNCTION ∧
    convertToActivityType KINETO_PLUGIN_PROFILE_EVENT_TYPE_OVERHEAD
      = ActivityType.OVERHEAD ∧
    convertToActivityType KINETO_PLUGIN_PROFILE_EVENT_TYPE_CUDA_SYNC
      = ActivityType.CUDA_SYNC ∧
    convertToActivityType KINETO_PLUGIN_PROFILE_EVENT_TYPE_GPU_PM_COUNTER
      = ActivityType.GPU_PM_COUNTER ∧
    convertToLinkType KINETO_PLUGIN_PROFILE_EVENT_FLOW_TYPE_FWD_BWD
      = kLinkFwdBwd ∧
    convertToLinkType KINETO_PLUGIN_PROFILE_EVENT_FLOW_TYPE_ASYNC_CPU_GPU
      = kLinkAsyncCpuGpu := by
  refine ⟨?_, ?_, ?_⟩
  case _ =>
    intro h
    simp only [recognizedEventTypeCodes, List.mem_cons,
      List.not_mem_nil, or_false,
      KINETO_PLUGIN_PROFILE_EVENT_TYPE_CPU_OP,
      KINETO_PLUGIN_PROFILE_EVENT_TYPE_USER_ANNOTATION,
      KINETO_PLUGIN_PROFILE_EVENT_TYPE_GPU_USER_ANNOTATION,
      KINETO_PLUGIN_PROFILE_EVENT_TYPE_GPU_MEMCPY,
      KINETO_PLUGIN_PROFILE_EVENT_TYPE_GPU_MEMSET,
      KINETO_PLUGIN_PROFILE_EVENT_TYPE_CONCURRENT_KERNEL,
      KINETO_PLUGIN_PROFILE_EVENT_TYPE_EXTERNAL_CORRELATION,
      KINETO_PLUGIN_PROFILE_EVENT_TYPE_CUDA_RUNTIME,
      KINETO_PLUGIN_PROFILE_EVENT_TYPE_CUDA_DRIVER,
      KINETO_PLUGIN_PROFILE_EVENT_TYPE_CPU_INSTANT_EVENT,
      KINETO_PLUGIN_PROFILE_EVENT_TYPE_PYTHON_FUNCTION,
      KINETO_PLUGIN_PROFILE_EVENT_TYPE_OVERHEAD,
      KINETO_PLUGIN_PROFILE_EVENT_TYPE_CUDA_SYNC,
      KINETO_PLUGIN_PROFILE_EVENT_TYPE_GPU_PM_COUNTER] at h
    push_neg at h
    obtain ⟨h1, h2, h3, h4, h5, h6, h7, h8, h9, h10, h11, h12, h13, h14⟩ := h
    simp [convertToActivityType,
      KINETO_PLUGIN_PROFILE_EVENT_TYPE_CPU_OP,
      KINETO_PLUGIN_PROFILE_EVENT_TYPE_USER_ANNOTATION,
      KINETO_PLUGIN_PROFILE_EVENT_TYPE_GPU_USER_ANNOTATION,
      KINETO_PLUGIN_PROFILE_EVENT_TYPE_GPU_MEMCPY,
      KINETO_PLUGIN_PROFILE_EVENT_TYPE_GPU_MEMSET,
      KINETO_PLUGIN_PROFILE_EVENT_TYPE_CONCURRENT_KERNEL,
      KINETO_PLUGIN_PROFILE_EVENT_TYPE_EXTERNAL_CORRELATION,
      KINETO_PLUGIN_PROFILE_EVENT_TYPE_CUDA_RUNTIME,
      KINETO_PLUGIN_PROFILE_EVENT_TYPE_CUDA_DRIVER,
      KINETO_PLUGIN_PROFILE_EVENT_TYPE_CPU_INSTANT_EVENT,
      KINETO_PLUGIN_PROFILE_EVENT_TYPE_PYTHON_FUNCTION,
      KINETO_PLUGIN_PROFILE_EVENT_TYPE_OVERHEAD,
      KINETO_PLUGIN_PROFILE_EVENT_TYPE_CUDA_SYNC,
      KINETO_PLUGIN_PROFILE_EVENT_TYPE_GPU_PM_COUNTER,
      h1, h2, h3, h4, h5, h6, h7, h8, h9, h10, h11, h12, h13, h14]
  case _ =>
    intro h
    simp only [recognizedFlowTypeCodes, List.mem_cons,
      List.not_mem_nil, or_false,
      KINETO_PLUGIN_PROFILE_EVENT_FLOW_TYPE_FWD_BWD,
      KINETO_PLUGIN_PROFILE_EVENT_FLOW_TYPE_ASYNC_CPU_GPU] at h
    push_neg at h
    obtain ⟨h1, h2⟩ := h
    simp [convertToLinkType,
      KINETO_PLUGIN_PROFILE_EVENT_FLOW_TYPE_FWD_BWD,
      KINETO_PLUGIN_PROFILE_EVENT_FLOW_TYPE_ASYNC_CPU_GPU, h1, h2]
  case _ =>
    decide

/-- Witness for C7: the unrecognized wire codes 99 and 77 hit the default
branches. -/
theorem translation_tables_default_and_listed_witness :
    (99 ∉ recognizedEventTypeCodes) ∧
    convertToActivityType 99 = ActivityType.CONCURRENT_KERNEL ∧
    (77 ∉ recognizedFlowTypeCodes) ∧ convertToLinkType 77 = 0 :=
  ⟨by decide, (translation_tables_default_and_listed 99 77).1 (by decide),
   by decide, (translation_tables_default_and_listed 99 77).2.1 (by decide)⟩

/-- C4 counterexample: a plugin that reports success from its query call but
fills the whole 32-byte name buffer with non-null bytes.  The claim demands
that the adapter's stored name nevertheless be null-terminated (well
defined); in the source the adapter writes no terminator of its own, so the
C-string read finds no null byte inside the buffer and the stored name is
undefined. -/
theorem adapter_does_not_terminate_name_counterexample :
    (profilerQueriedName bufferFillingPluginInterface
        (List.replicate 32 0)).isSome = false := by decide

/-- C4 amended: the adapter itself never null-terminates the queried name.
When the query call succeeds, the stored name is well defined exactly when
the plugin left a null byte inside the buffer, and in that case it consists
of the buffer's bytes before the first null. -/
theorem adapter_name_requires_plugin_terminator
    (profiler : KinetoPlugin_ProfilerInterface) (initialBuf : List Nat)
    (hok : (profiler.profilerQuery initialBuf 31).1 = 0) :
    ((profilerQueriedName profiler initialBuf).isSome ↔
      0 ∈ (profiler.profilerQuery initialBuf 31).2) ∧
    (0 ∈ (profiler.profilerQuery initialBuf 31).2 →
      profilerQueriedName profiler initialBuf
        = some ((profiler.profilerQuery initialBuf 31).2.takeWhile
            (fun b => b != 0))) := by
  constructor
  · simp only [profilerQueriedName, hok, ne_eq, not_true_eq_false,
      if_false, cStringFromBuffer]
    by_cases hz : 0 ∈ (profiler.profilerQuery initialBuf 31).2 <;>
      simp [hz]
  · intro hz
    simp [profilerQueriedName, hok, cStringFromBuffer, hz]

/-- Witness for C4 amended: the mock plugin writes "MockPlugin" followed by a
null byte, so the stored name is defined and equals those bytes. -/
theorem adapter_name_requires_plugin_terminator_witness :
    (mockPluginInterface.profilerQuery (List.replicate 32 0) 31).1 = 0 ∧
    ((profilerQueriedName mockPluginInterface
        (List.replicate 32 0)).isSome ↔
      0 ∈ (mockPluginInterface.profilerQuery (List.replicate 32 0) 31).2) ∧
    (0 ∈ (mockPluginInterface.profilerQuery (List.replicate 32 0) 31).2 →
      profilerQueriedName mockPluginInterface (List.replicate 32 0)
        = some ((mockPluginInterface.profilerQuery
            (List.replicate 32 0) 31).2.takeWhile (fun b => b != 0))) :=
  ⟨by decide,
   adapter_name_requires_plugin_terminator mockPluginInterface
     (List.replicate 32 0) (by decide)⟩

/-- updateLast on a list ending in a rewrites exactly that last element. -/
theorem updateLast_append {α : Type} (f : α → α) (l : List α) (a : α) :
    updateLast f (l ++ [a]) = l ++ [f a] := by
  induction l with
  | nil => rfl
  | cons x rest ih =>
    cases hr : rest ++ [a] with
    | nil => exact absurd hr (by simp)
    | cons b r2 =>
      simp only [List.cons_append, hr, updateLast]
      rw [← hr, ih]

/-- One valid addEvent followed by setLastEventName appends exactly the
activity the spec describes. -/
theorem addNamedEvent_step (b : PluginTraceBuilder) (buf : CpuTraceBuffer)
    (pe : KinetoPlugin_ProfileEvent) (n : String) (hb : b.buffer = some buf)
    (hsz : KINETO_PLUGIN_PROFILE_EVENT_UNPADDED_STRUCT_SIZE ≤
      pe.unpaddedStructSize) :
    ((b.addEvent (some pe)).2.setLastEventName (some n)).2
      = { b with buffer := some ⟨buf.span, buf.gpuOpCount,
            buf.activities ++ [specExpectedActivity pe n]⟩ } := by
  have hlt : ¬ pe.unpaddedStructSize <
      KINETO_PLUGIN_PROFILER_PROCESS_EVENTS_PARAMS_UNPADDED_STRUCT_SIZE := by
    simp only [KINETO_PLUGIN_PROFILER_PROCESS_EVENTS_PARAMS_UNPADDED_STRUCT_SIZE]
    simp only [KINETO_PLUGIN_PROFILE_EVENT_UNPADDED_STRUCT_SIZE] at hsz
    omega
  have h1 : b.addEvent (some pe)
      = (0, { b with buffer := some ⟨buf.span, buf.gpuOpCount,
                buf.activities ++ [specExpectedActivity pe ""]⟩ }) := by
    simp only [PluginTraceBuilder.addEvent, hb, hlt, if_false]
    rfl
  rw [h1]
  have hne : ¬ (buf.activities ++ [specExpectedActivity pe ""]).isEmpty := by
    simp
  simp only [PluginTraceBuilder.setLastEventName, hne, if_false]
  rw [updateLast_append]
  rfl

/-- Running valid (addEvent, setLastEventName) pairs appends exactly the
described activities, in call order, leaving everything else in the builder
unchanged. -/
theorem runNamedEvents_spec (pairs : List (KinetoPlugin_ProfileEvent × String))
    (b : PluginTraceBuilder) (buf : CpuTraceBuffer) (hb : b.buffer = some buf)
    (hval : ∀ p ∈ pairs,
      KINETO_PLUGIN_PROFILE_EVENT_UNPADDED_STRUCT_SIZE ≤
        p.1.unpaddedStructSize) :
    runNamedEvents b pairs
      = { b with buffer := some ⟨buf.span, buf.gpuOpCount,
            buf.activities ++
              pairs.map (fun q => specExpectedActivity q.1 q.2)⟩ } := by
  induction pairs generalizing b buf with
  | nil =>
    simp only [runNamedEvents, List.map_nil, List.append_nil]
    cases b with
    | mk bb ri =>
      simp only at hb
      rw [hb]
  | cons p rest ih =>
    obtain ⟨pe, n⟩ := p
    simp only [runNamedEvents]
    rw [addNamedEvent_step b buf pe n hb
      (hval (pe, n) (List.mem_cons_self _ _))]
    rw [ih _ ⟨buf.span, buf.gpuOpCount,
          buf.activities ++ [specExpectedActivity pe n]⟩ rfl
      (fun q hq => hval q (List.mem_cons_of_mem _ hq))]
    simp

/-- C6: for every sequence of valid addEvent/setLastEventName call pairs a
plugin issues against a fresh builder, the resulting trace buffer contains
exactly the added events, in call order, each carrying the activity kind
obtained by translating its wire-level event-type code, the name given via
setLastEventName, the exact start/end nanosecond timestamps supplied, and its
eventId, deviceId, resourceId and threadId. -/
theorem trace_builder_records_events_in_order (span : TraceSpan)
    (pairs : List (KinetoPlugin_ProfileEvent × String))
    (hval : ∀ p ∈ pairs,
      KINETO_PLUGIN_PROFILE_EVENT_UNPADDED_STRUCT_SIZE ≤
        p.1.unpaddedStructSize) :
    (runNamedEvents (mkPluginTraceBuilder span) pairs).buffer
      = some ⟨span, -1,
          pairs.map (fun q => specExpectedActivity q.1 q.2)⟩ := by
  rw [runNamedEvents_spec pairs (mkPluginTraceBuilder span) ⟨span, -1, []⟩
    rfl hval]
  simp

/-- Witness for C6: the four MockPlugin call pairs of DynamicPluginTest.cpp
produce exactly the four expected activities, in order. -/
theorem trace_builder_records_events_in_order_witness :
    (∀ p ∈ testEventPairs,
      KINETO_PLUGIN_PROFILE_EVENT_UNPADDED_STRUCT_SIZE ≤
        p.1.unpaddedStructSize) ∧
    (runNamedEvents (mkPluginTraceBuilder testSpan) testEventPairs).buffer
      = some ⟨testSpan, -1,
          testEventPairs.map (fun q => specExpectedActivity q.1 q.2)⟩ :=
  ⟨by decide,
   trace_builder_records_events_in_order testSpan testEventPairs (by decide)⟩

end libkineto
